import Mathlib

/-!
Verification of the kaiten-mcp-server core: the outbound request governor
(retry/backoff/concurrency in `src/kaiten-client.ts`), the error classifier
(`handleAxiosError`), the TTL+LRU cache (`src/cache.ts`) and the response
shaper (`src/utils.ts`), shallowly embedded from the TypeScript sources.

JS numbers appearing as HTTP statuses and ids are modelled as `Int`,
timestamps and lengths as `Nat`, and the float-valued jitter
(`Math.random() * 500`) as an arbitrary rational parameter.  JS `null` and
`undefined` are both modelled as `Option.none` where only their falsiness is
observable.
-/

namespace KaitenMCP

/-- JS runtime values (JSON-like).  Objects are field lists; when a spread and
a literal key collide, the later entry in the list is the one JS keeps, so
appending models `{ ...data, k: v }`. -/
inductive JsonVal where
  | null
  | bool (b : Bool)
  | num (n : Int)
  | str (s : String)
  | arr (elems : List JsonVal)
  | obj (fields : List (String × JsonVal))

/-- `KaitenErrorType` from `src/kaiten-client.ts` lines 13-22: the closed
eight-member error taxonomy. -/
inductive KaitenErrorType where
  | AUTH_ERROR
  | RATE_LIMITED
  | NOT_FOUND
  | TIMEOUT
  | VALIDATION_ERROR
  | API_ERROR
  | NETWORK_ERROR
  | UNKNOWN_ERROR
deriving DecidableEq

/-- `KaitenError` from `src/kaiten-client.ts` lines 24-45 (the carried data;
the JS class also extends `Error`). -/
structure KaitenError where
  type : KaitenErrorType
  message : String
  status : Option Int := none
  details : Option JsonVal := none
  hint : Option String := none

/-- The part of an axios response that `handleAxiosError`, `retryDelay` and
`retryCondition` read: HTTP status, the `retry-after` header (if present) and
the body. -/
structure AxiosResponse where
  status : Int
  retryAfter : Option String
  data : JsonVal

/-- The part of an `AxiosError` that the client reads: `error.code`,
`error.message`, `error.response`. -/
structure AxiosErrorVal where
  code : Option String := none
  message : String := ""
  response : Option AxiosResponse := none

/-- JS `s || fallback` for strings: the empty string is falsy. -/
def strOrElse (s fallback : String) : String :=
  if s = "" then fallback else s

/-- JS `undefined`/`null` string read as a JSON value (both modelled as
`JsonVal.null`). -/
def jsonOfOptStr : Option String → JsonVal
  | some s => .str s
  | none => .null

/-- Fields contributed by a JS spread `{ ...(typeof data === 'object' &&
data !== null ? data : \x7b\x7d) }`: objects contribute their fields, arrays
their index-keyed elements, everything else nothing. -/
def spreadFields : JsonVal → List (String × JsonVal)
  | .obj fields => fields
  | .arr elems => elems.enum.map fun p => (toString p.1, p.2)
  | _ => []

/-- `handleAxiosError` from `src/kaiten-client.ts` lines 280-350, the error
classifier.  `timeoutMs` is `config.KAITEN_REQUEST_TIMEOUT_MS` (read only to
build the timeout message). -/
def handleAxiosError (timeoutMs : Nat) (error : AxiosErrorVal) : KaitenError :=
  if error.code = some "ECONNABORTED" ∨ error.code = some "ETIMEDOUT" then
    { type := .TIMEOUT
      message := "Request timeout after " ++ toString timeoutMs ++ "ms"
      details := some (.obj [("code", jsonOfOptStr error.code)])
      hint := some "Try reducing the limit parameter or specifying a more specific board_id/space_id" }
  else
    match error.response with
    | none =>
      { type := .NETWORK_ERROR
        message := strOrElse error.message "Network error occurred"
        details := some (.obj [("code", jsonOfOptStr error.code)])
        hint := some "Check your internet connection and API URL configuration" }
    | some response =>
      let status := response.status
      let data := response.data
      if status = 401 then
        { type := .AUTH_ERROR, message := "Authentication failed", status := some status
          details := some data, hint := some "Check your KAITEN_API_TOKEN in .env file" }
      else if status = 403 then
        { type := .AUTH_ERROR, message := "Insufficient permissions", status := some status
          details := some data
          hint := some "Your API token does not have permission to perform this action" }
      else if status = 404 then
        { type := .NOT_FOUND, message := "Resource not found", status := some status
          details := some data
          hint := some "Check that the card_id, board_id, space_id, or other resource ID is correct" }
      else if status = 422 then
        { type := .VALIDATION_ERROR, message := "Validation error", status := some status
          details := some data, hint := some "Check the request parameters for correctness" }
      else if status = 429 then
        let retryAfterVal : String :=
          match response.retryAfter with
          | some h => strOrElse h "unknown"
          | none => "unknown"
        { type := .RATE_LIMITED, message := "Rate limit exceeded", status := some status
          details := some (.obj (spreadFields data ++ [("retry_after", .str retryAfterVal)]))
          hint := some "Reduce the frequency of requests or decrease the limit parameter" }
      else if 500 ≤ status ∧ status < 600 then
        { type := .API_ERROR, message := "Kaiten server error", status := some status
          details := some data, hint := some "The Kaiten API is experiencing issues. Try again later." }
      else
        { type := .API_ERROR, message := strOrElse error.message "API request failed"
          status := some status, details := some data, hint := none }

/-- JS whitespace skipped by `parseInt` (the common ASCII subset; Unicode
space variants behave the same way and never occur in `Retry-After`). -/
def isJsSpace (c : Char) : Bool :=
  c == ' ' || c == '\t' || c == '\n' || c == '\r'

/-- Value of a longest leading digit run, `none` when there is no digit. -/
def leadingDigits (cs : List Char) : Option Nat :=
  let ds := cs.takeWhile Char.isDigit
  if ds.isEmpty then none
  else some (ds.foldl (fun acc c => acc * 10 + (c.toNat - '0'.toNat)) 0)

/-- JS `parseInt(s, 10)`: skip leading whitespace, optional sign, then the
longest digit run; `NaN` (here `none`) when no digit follows. -/
def parseIntJS (s : String) : Option Int :=
  match s.data.dropWhile isJsSpace with
  | '-' :: rest => (leadingDigits rest).map fun n => -(n : Int)
  | '+' :: rest => (leadingDigits rest).map fun n => (n : Int)
  | cs => (leadingDigits cs).map fun n => (n : Int)

/-- The exponential-backoff branch of `retryDelay` (`src/kaiten-client.ts`
lines 221-225): `baseDelay * 2^(retryCount-1) + jitter`, with
`jitter = Math.random() * 500` modelled as a rational parameter. -/
def expBackoffDelay (retryCount : Nat) (jitter : ℚ) : ℚ :=
  1000 * 2 ^ (retryCount - 1) + jitter

/-- `retryDelay` from `src/kaiten-client.ts` lines 210-226.  `retryAfter` is
`error.response?.headers['retry-after']`; the JS truthiness test `if
(retryAfter)` makes the empty string fall through to the backoff branch. -/
def retryDelay (retryCount : Nat) (retryAfter : Option String) (jitter : ℚ) : ℚ :=
  match retryAfter with
  | some ra =>
    if ra = "" then expBackoffDelay retryCount jitter
    else
      match parseIntJS ra with
      | some seconds => (seconds : ℚ) * 1000
      | none => expBackoffDelay retryCount jitter
  | none => expBackoffDelay retryCount jitter

/-- `retryCondition` from `src/kaiten-client.ts` lines 227-242: retry on
missing response (network error) or on status 429, 408, or 5xx. -/
def retryCondition (error : AxiosErrorVal) : Bool :=
  match error.response with
  | none => true
  | some response =>
    let status := response.status
    status == 429 || status == 408 || (decide (500 ≤ status) && decide (status < 600))

/-- Number of executions performed by the axios-retry loop (`retries: 3`)
when attempt `i` has outcome `outcomes i` (`none` = success, `some e` =
failure `e`): one execution, plus a retry while the failure passes
`retryCondition` and retries remain. -/
def attemptsUsed : Nat → (Nat → Option AxiosErrorVal) → Nat → Nat
  | 0, _, _ => 1
  | retries + 1, outcomes, i =>
    match outcomes i with
    | none => 1
    | some e =>
      if retryCondition e then 1 + attemptsUsed retries outcomes (i + 1)
      else 1

/-- C1: when the failed response carries a `Retry-After` header whose value
parses (as `parseInt(.., 10)`) to an integer number of seconds, `retryDelay`
returns exactly that number of seconds converted to milliseconds, for every
retry count and every jitter draw — overriding the exponential-backoff
formula; in particular `Retry-After: 5` delays the next attempt by exactly
5000 ms, so it starts no earlier than 5 seconds after the failure. -/
theorem retryDelay_honors_retry_after (retryCount : Nat) (ra : String) (jitter : ℚ)
    (seconds : Int) (hparse : parseIntJS ra = some seconds) :
    retryDelay retryCount (some ra) jitter = (seconds : ℚ) * 1000 := by
  have hne : ra ≠ "" := by
    intro he
    rw [he] at hparse
    have hnone : parseIntJS "" = none := rfl
    rw [hnone] at hparse
    exact Option.noConfusion hparse
  simp [retryDelay, hne, hparse]

/-- Witness for C1: `Retry-After: 5` on the third retry with a 250 ms jitter
draw gives exactly 5000 ms. -/
theorem retryDelay_honors_retry_after_witness :
    parseIntJS "5" = some 5 ∧ retryDelay 3 (some "5") 250 = 5000 := by
  have h : parseIntJS "5" = some 5 := by decide
  refine ⟨h, ?_⟩
  rw [retryDelay_honors_retry_after 3 "5" 250 5 h]
  norm_num

/-- The axios-retry loop never exceeds `retriesLeft + 1` executions. -/
theorem attemptsUsed_le (retriesLeft : Nat) (outcomes : Nat → Option AxiosErrorVal) (i : Nat) :
    attemptsUsed retriesLeft outcomes i ≤ retriesLeft + 1 := by
  induction retriesLeft generalizing i with
  | zero => simp [attemptsUsed]
  | succ n ih =>
    unfold attemptsUsed
    cases outcomes i with
    | none => simp
    | some e =>
      show (if retryCondition e = true then 1 + attemptsUsed n outcomes (i + 1) else 1) ≤
        n + 1 + 1
      by_cases hr : retryCondition e = true
      · have := ih (i + 1)
        rw [if_pos hr]
        omega
      · rw [if_neg hr]
        omega

/-- C2 (amended): the retry decision is made on the raw transport outcome,
not on the classified error kind — a failure is retried iff it has no
response (network failure) or its status is 408, 429 or 5xx; every retried
failure does classify to `NETWORK_ERROR`, `TIMEOUT`, `RATE_LIMITED` or
`API_ERROR` (the code's single kind covering both the spec's `SERVER_ERROR`
and its `UNKNOWN`), but the converse fails; with the configured `retries: 3`
at most 4 total executions are performed; and absent a usable `Retry-After`
header, the delay before retry `k+1` (1-indexed) is
`1000 * 2^k + jitter` with the jitter drawn from `[0, 500)`. -/
theorem retry_policy_by_status (e : AxiosErrorVal) (outcomes : Nat → Option AxiosErrorVal)
    (k : Nat) (jitter : ℚ) (timeoutMs : Nat) :
    (retryCondition e = true ↔
      e.response = none ∨ ∃ r, e.response = some r ∧
        (r.status = 429 ∨ r.status = 408 ∨ (500 ≤ r.status ∧ r.status < 600))) ∧
    (retryCondition e = true →
      (handleAxiosError timeoutMs e).type = KaitenErrorType.NETWORK_ERROR ∨
      (handleAxiosError timeoutMs e).type = KaitenErrorType.TIMEOUT ∨
      (handleAxiosError timeoutMs e).type = KaitenErrorType.RATE_LIMITED ∨
      (handleAxiosError timeoutMs e).type = KaitenErrorType.API_ERROR) ∧
    attemptsUsed 3 outcomes 0 ≤ 3 + 1 ∧
    retryDelay (k + 1) none jitter = 1000 * 2 ^ k + jitter := by
  obtain ⟨code, msg, resp⟩ := e
  refine ⟨?_, ?_, attemptsUsed_le 3 outcomes 0, ?_⟩
  · cases resp with
    | none => simp [retryCondition]
    | some r => simp [retryCondition, or_assoc]
  · intro hretry
    by_cases hc : code = some "ECONNABORTED" ∨ code = some "ETIMEDOUT"
    · simp [handleAxiosError, hc]
    · cases resp with
      | none => simp [handleAxiosError, hc]
      | some r =>
        simp [retryCondition, or_assoc] at hretry
        rcases hretry with h429 | h408 | h5xx
        · simp [handleAxiosError, hc, h429]
        · simp [handleAxiosError, hc, h408]
        · have h1 : r.status ≠ 401 := by omega
          have h2 : r.status ≠ 403 := by omega
          have h3 : r.status ≠ 404 := by omega
          have h4 : r.status ≠ 422 := by omega
          have h5 : r.status ≠ 429 := by omega
          simp [handleAxiosError, hc, h1, h2, h3, h4, h5, h5xx]
  · simp [retryDelay, expBackoffDelay]

/-- Witness for C2 (amended), at a 503 failure, an all-success outcome
stream, first retry, and jitter 250. -/
theorem retry_policy_by_status_witness :
    (retryCondition { code := none, message := "boom"
                      response := some { status := 503, retryAfter := none
                                         data := JsonVal.null } } = true ↔
      ({ code := none, message := "boom"
         response := some { status := 503, retryAfter := none
                            data := JsonVal.null } } : AxiosErrorVal).response = none ∨
      ∃ r, ({ code := none, message := "boom"
              response := some { status := 503, retryAfter := none
                                 data := JsonVal.null } } : AxiosErrorVal).response = some r ∧
        (r.status = 429 ∨ r.status = 408 ∨ (500 ≤ r.status ∧ r.status < 600))) ∧
    (handleAxiosError 30000 { code := none, message := "boom"
                              response := some { status := 503, retryAfter := none
                                                 data := JsonVal.null } }).type =
      KaitenErrorType.API_ERROR ∧
    attemptsUsed 3 (fun _ => none) 0 ≤ 3 + 1 ∧
    retryDelay (0 + 1) none 250 = 1000 * 2 ^ 0 + 250 := by
  obtain ⟨h1, h2, h3, h4⟩ :=
    retry_policy_by_status
      { code := none, message := "boom"
        response := some { status := 503, retryAfter := none, data := JsonVal.null } }
      (fun _ => none) 0 250 30000
  have htype := h2 (by decide)
  refine ⟨h1, ?_, h3, h4⟩
  rcases htype with h | h | h | h <;> first | exact h | exact absurd h (by decide)

/-- C2 counterexample: an HTTP 400 failure classifies to `API_ERROR` — the
code's analogue of the spec's `SERVER_ERROR` kind — yet is not retried, so
"retried iff classified kind is NETWORK_ERROR/TIMEOUT/RATE_LIMITED/
SERVER_ERROR" is false on the code. -/
theorem retry_not_by_kind_counterexample :
    (handleAxiosError 30000 { code := none, message := "Request failed with status code 400"
                              response := some { status := 400, retryAfter := none
                                                 data := JsonVal.null } }).type =
      KaitenErrorType.API_ERROR ∧
    retryCondition { code := none, message := "Request failed with status code 400"
                     response := some { status := 400, retryAfter := none
                                        data := JsonVal.null } } = false ∧
    ¬(((handleAxiosError 30000 { code := none
                                 message := "Request failed with status code 400"
                                 response := some { status := 400, retryAfter := none
                                                    data := JsonVal.null } }).type =
          KaitenErrorType.NETWORK_ERROR ∨
       (handleAxiosError 30000 { code := none
                                 message := "Request failed with status code 400"
                                 response := some { status := 400, retryAfter := none
                                                    data := JsonVal.null } }).type =
          KaitenErrorType.TIMEOUT ∨
       (handleAxiosError 30000 { code := none
                                 message := "Request failed with status code 400"
                                 response := some { status := 400, retryAfter := none
                                                    data := JsonVal.null } }).type =
          KaitenErrorType.RATE_LIMITED ∨
       (handleAxiosError 30000 { code := none
                                 message := "Request failed with status code 400"
                                 response := some { status := 400, retryAfter := none
                                                    data := JsonVal.null } }).type =
          KaitenErrorType.API_ERROR) ↔
      retryCondition { code := none, message := "Request failed with status code 400"
                       response := some { status := 400, retryAfter := none
                                          data := JsonVal.null } } = true) := by
  refine ⟨by decide, by decide, ?_⟩
  intro hiff
  have := hiff.mp (by decide)
  exact absurd this (by decide)

/-- C3 (amended): `handleAxiosError` is total and always yields one of the
eight closed kinds (by the type of its result), with the mapping: timeout
codes (`ECONNABORTED`/`ETIMEDOUT`) → `TIMEOUT`; otherwise no response →
`NETWORK_ERROR`; 401/403 → `AUTH_ERROR`; 404 → `NOT_FOUND`; 422 →
`VALIDATION_ERROR`; 429 → `RATE_LIMITED` with the `Retry-After` value (or
"unknown") surfaced in `details`; 5xx → `API_ERROR`; and every other status
→ `API_ERROR` as well (not a distinct `UNKNOWN` kind), preserving the status
and body. -/
theorem handleAxiosError_mapping (timeoutMs : Nat) (e : AxiosErrorVal) :
    ((e.code = some "ECONNABORTED" ∨ e.code = some "ETIMEDOUT") →
      (handleAxiosError timeoutMs e).type = KaitenErrorType.TIMEOUT) ∧
    (¬(e.code = some "ECONNABORTED" ∨ e.code = some "ETIMEDOUT") → e.response = none →
      (handleAxiosError timeoutMs e).type = KaitenErrorType.NETWORK_ERROR) ∧
    ∀ r, ¬(e.code = some "ECONNABORTED" ∨ e.code = some "ETIMEDOUT") → e.response = some r →
      ((r.status = 401 ∨ r.status = 403) →
        (handleAxiosError timeoutMs e).type = KaitenErrorType.AUTH_ERROR) ∧
      (r.status = 404 →
        (handleAxiosError timeoutMs e).type = KaitenErrorType.NOT_FOUND) ∧
      (r.status = 422 →
        (handleAxiosError timeoutMs e).type = KaitenErrorType.VALIDATION_ERROR) ∧
      (r.status = 429 →
        (handleAxiosError timeoutMs e).type = KaitenErrorType.RATE_LIMITED ∧
        (handleAxiosError timeoutMs e).details =
          some (JsonVal.obj (spreadFields r.data ++
            [("retry_after", JsonVal.str
              (match r.retryAfter with
               | some h => strOrElse h "unknown"
               | none => "unknown"))]))) ∧
      (500 ≤ r.status ∧ r.status < 600 →
        (handleAxiosError timeoutMs e).type = KaitenErrorType.API_ERROR) ∧
      (r.status ≠ 401 → r.status ≠ 403 → r.status ≠ 404 → r.status ≠ 422 → r.status ≠ 429 →
        ¬(500 ≤ r.status ∧ r.status < 600) →
        (handleAxiosError timeoutMs e).type = KaitenErrorType.API_ERROR ∧
        (handleAxiosError timeoutMs e).status = some r.status ∧
        (handleAxiosError timeoutMs e).details = some r.data) := by
  obtain ⟨code, msg, resp⟩ := e
  refine ⟨?_, ?_, ?_⟩
  · intro hc
    simp [handleAxiosError, hc]
  · intro hc hresp
    simp only at hresp
    subst hresp
    simp [handleAxiosError, hc]
  · intro r hc hresp
    simp only at hresp
    subst hresp
    refine ⟨?_, ?_, ?_, ?_, ?_, ?_⟩
    · rintro (h | h) <;> simp [handleAxiosError, hc, h]
    · intro h
      have h1 : r.status ≠ 401 := by omega
      have h2 : r.status ≠ 403 := by omega
      simp [handleAxiosError, hc, h1, h2, h]
    · intro h
      have h1 : r.status ≠ 401 := by omega
      have h2 : r.status ≠ 403 := by omega
      have h3 : r.status ≠ 404 := by omega
      simp [handleAxiosError, hc, h1, h2, h3, h]
    · intro h
      have h1 : r.status ≠ 401 := by omega
      have h2 : r.status ≠ 403 := by omega
      have h3 : r.status ≠ 404 := by omega
      have h4 : r.status ≠ 422 := by omega
      constructor <;> simp [handleAxiosError, hc, h1, h2, h3, h4, h]
    · intro h
      have h1 : r.status ≠ 401 := by omega
      have h2 : r.status ≠ 403 := by omega
      have h3 : r.status ≠ 404 := by omega
      have h4 : r.status ≠ 422 := by omega
      have h5 : r.status ≠ 429 := by omega
      simp [handleAxiosError, hc, h1, h2, h3, h4, h5, h]
    · intro h1 h2 h3 h4 h5 h6
      refine ⟨?_, ?_, ?_⟩ <;> simp [handleAxiosError, hc, h1, h2, h3, h4, h5, h6]

/-- Witness for C3 (amended): the mapping theorem applied at concrete
failures — a timeout code, a response-less network failure, a 403, a 429
carrying `Retry-After: 7`, a 503, and a 418. -/
theorem handleAxiosError_mapping_witness :
    (handleAxiosError 30000 { code := some "ETIMEDOUT", message := "timeout"
                              response := none }).type = KaitenErrorType.TIMEOUT ∧
    (handleAxiosError 30000 { code := some "ECONNREFUSED", message := "refused"
                              response := none }).type = KaitenErrorType.NETWORK_ERROR ∧
    (handleAxiosError 30000 { code := none, message := "forbidden"
                              response := some { status := 403, retryAfter := none
                                                 data := JsonVal.null } }).type =
      KaitenErrorType.AUTH_ERROR ∧
    (handleAxiosError 30000 { code := none, message := "limited"
                              response := some { status := 429, retryAfter := some "7"
                                                 data := JsonVal.obj [] } }).details =
      some (JsonVal.obj [("retry_after", JsonVal.str "7")]) ∧
    (handleAxiosError 30000 { code := none, message := "oops"
                              response := some { status := 503, retryAfter := none
                                                 data := JsonVal.null } }).type =
      KaitenErrorType.API_ERROR ∧
    (handleAxiosError 30000 { code := none, message := "teapot"
                              response := some { status := 418, retryAfter := none
                                                 data := JsonVal.str "body" } }).type =
      KaitenErrorType.API_ERROR := by
  refine ⟨?_, ?_, ?_, ?_, ?_, ?_⟩
  · exact (handleAxiosError_mapping 30000
      { code := some "ETIMEDOUT", message := "timeout", response := none }).1 (Or.inr rfl)
  · exact (handleAxiosError_mapping 30000
      { code := some "ECONNREFUSED", message := "refused", response := none }).2.1
      (by decide) rfl
  · exact ((handleAxiosError_mapping 30000
      { code := none, message := "forbidden"
        response := some { status := 403, retryAfter := none
                           data := JsonVal.null } }).2.2
      { status := 403, retryAfter := none, data := JsonVal.null }
      (by decide) rfl).1 (Or.inr rfl)
  · exact (((handleAxiosError_mapping 30000
      { code := none, message := "limited"
        response := some { status := 429, retryAfter := some "7"
                           data := JsonVal.obj [] } }).2.2
      { status := 429, retryAfter := some "7", data := JsonVal.obj [] }
      (by decide) rfl).2.2.2.1 rfl).2
  · exact ((handleAxiosError_mapping 30000
      { code := none, message := "oops"
        response := some { status := 503, retryAfter := none
                           data := JsonVal.null } }).2.2
      { status := 503, retryAfter := none, data := JsonVal.null }
      (by decide) rfl).2.2.2.2.1 (by decide)
  · exact (((handleAxiosError_mapping 30000
      { code := none, message := "teapot"
        response := some { status := 418, retryAfter := none
                           data := JsonVal.str "body" } }).2.2
      { status := 418, retryAfter := none, data := JsonVal.str "body" }
      (by decide) rfl).2.2.2.2.2
      (by decide) (by decide) (by decide) (by decide) (by decide) (by decide)).1

/-- C3 counterexample: a response status outside the mapped set (HTTP 418)
classifies to `API_ERROR`, not to the `UNKNOWN` kind the claim states. -/
theorem handleAxiosError_unknown_counterexample :
    (handleAxiosError 30000 { code := none, message := "teapot"
                              response := some { status := 418, retryAfter := none
                                                 data := JsonVal.str "body" } }).type =
      KaitenErrorType.API_ERROR ∧
    (handleAxiosError 30000 { code := none, message := "teapot"
                              response := some { status := 418, retryAfter := none
                                                 data := JsonVal.str "body" } }).type ≠
      KaitenErrorType.UNKNOWN_ERROR := by
  refine ⟨by decide, by decide⟩

/-- Data path of `queuedRequest` (`src/kaiten-client.ts` lines 353-386).
`abortedAtSubmit` is `signal?.aborted` on entry, `abortedAtStart` the
effective signal's state when the queued task begins, and `task` the wrapped
call `fn` given as (number of transport executions it performs, outcome).
Queue admission timing is modelled separately by `GovStep`. -/
def queuedRequest {T : Type} (abortedAtSubmit abortedAtStart : Bool)
    (task : Nat × Except KaitenError T) : Nat × Except KaitenError T :=
  if abortedAtSubmit then
    (0, Except.error { type := KaitenErrorType.UNKNOWN_ERROR
                       message := "Request aborted before execution"
                       details := some (JsonVal.obj [("code", JsonVal.str "ABORTED")])
                       hint := some "The operation was cancelled by the client" })
  else if abortedAtStart then
    (0, Except.error { type := KaitenErrorType.UNKNOWN_ERROR
                       message := "Request aborted"
                       details := some (JsonVal.obj [("code", JsonVal.str "ABORTED")])
                       hint := some "The operation was cancelled" })
  else task

/-- C5 (amended): when the cancellation signal is already triggered before
the request begins execution, `queuedRequest` fails fast performing zero
transport executions — no I/O and no retry attempt consumed — but the
outcome is not a separate `Cancelled` value: it is a `KaitenError` of kind
`UNKNOWN_ERROR` (one of the eight TypedError kinds) carrying
`details.code = ABORTED`. -/
theorem queuedRequest_aborted_fails_fast {T : Type} (abortedAtStart : Bool)
    (task : Nat × Except KaitenError T) :
    queuedRequest true abortedAtStart task =
      (0, Except.error { type := KaitenErrorType.UNKNOWN_ERROR
                         message := "Request aborted before execution"
                         details := some (JsonVal.obj [("code", JsonVal.str "ABORTED")])
                         hint := some "The operation was cancelled by the client" }) := rfl

/-- C5 counterexample: the cancelled outcome is not modelled separately from
the eight TypedError kinds — it is an `Except.error` whose `type` is the
enum member `UNKNOWN_ERROR` (a task succeeding after one transport call is
pre-empted by exactly that error, with zero transport calls). -/
theorem queuedRequest_cancelled_reuses_unknown_kind :
    queuedRequest true false ((1 : Nat), Except.ok (0 : Nat)) =
      (0, Except.error { type := KaitenErrorType.UNKNOWN_ERROR
                         message := "Request aborted before execution"
                         details := some (JsonVal.obj [("code", JsonVal.str "ABORTED")])
                         hint := some "The operation was cancelled by the client" }) ∧
    KaitenErrorType.UNKNOWN_ERROR ≠ KaitenErrorType.TIMEOUT := ⟨rfl, by decide⟩

/-- `generateIdempotencyKey` from `src/kaiten-client.ts` lines 191-193, with
`Date.now()` and the hex rendering of `randomBytes(8)` as parameters. -/
def generateIdempotencyKey (now : Nat) (randHex : String) : String :=
  "mcp-" ++ toString now ++ "-" ++ randHex

/-- The parts of an outbound HTTP request that the idempotency claim is
about: method, path and explicit per-request headers (the body and the
instance-level headers are irrelevant to it). -/
structure HttpRequest where
  method : String
  path : String
  headers : List (String × String)

/-- JS `idempotency_key || this.generateIdempotencyKey()`: the caller's key
when it is a non-empty string, otherwise a generated one. -/
def effectiveIdempotencyKey (given : Option String) (now : Nat) (randHex : String) : String :=
  match given with
  | some k => strOrElse k (generateIdempotencyKey now randHex)
  | none => generateIdempotencyKey now randHex

/-- Request built by `createCard` (`src/kaiten-client.ts` lines 396-405):
POST `/cards` with an `Idempotency-Key` header. -/
def createCardRequest (idempotencyKey : Option String) (now : Nat) (randHex : String) :
    HttpRequest :=
  { method := "post", path := "/cards"
    headers := [("Idempotency-Key", effectiveIdempotencyKey idempotencyKey now randHex)] }

/-- Request built by `updateCard` (lines 407-416): PATCH `/cards/:id` with an
`Idempotency-Key` header. -/
def updateCardRequest (cardId : Int) (idempotencyKey : Option String) (now : Nat)
    (randHex : String) : HttpRequest :=
  { method := "patch", path := "/cards/" ++ toString cardId
    headers := [("Idempotency-Key", effectiveIdempotencyKey idempotencyKey now randHex)] }

/-- Request built by `deleteCard` (lines 418-422): DELETE `/cards/:id` with
no per-request headers at all. -/
def deleteCardRequest (cardId : Int) : HttpRequest :=
  { method := "delete", path := "/cards/" ++ toString cardId, headers := [] }

/-- Request built by `createComment` (lines 551-559). -/
def createCommentRequest (cardId : Int) (idempotencyKey : Option String) (now : Nat)
    (randHex : String) : HttpRequest :=
  { method := "post", path := "/cards/" ++ toString cardId ++ "/comments"
    headers := [("Idempotency-Key", effectiveIdempotencyKey idempotencyKey now randHex)] }

/-- Request built by `updateComment` (lines 561-569). -/
def updateCommentRequest (cardId commentId : Int) (idempotencyKey : Option String) (now : Nat)
    (randHex : String) : HttpRequest :=
  { method := "patch"
    path := "/cards/" ++ toString cardId ++ "/comments/" ++ toString commentId
    headers := [("Idempotency-Key", effectiveIdempotencyKey idempotencyKey now randHex)] }

/-- Request built by `deleteComment` (lines 571-575): DELETE with no
per-request headers. -/
def deleteCommentRequest (cardId commentId : Int) : HttpRequest :=
  { method := "delete"
    path := "/cards/" ++ toString cardId ++ "/comments/" ++ toString commentId
    headers := [] }

/-- C6 (amended): the create and update operations on cards and comments
send an `Idempotency-Key` header — the caller's token when a non-empty one
is supplied, otherwise the generated `mcp-<timestamp>-<random hex>` token —
but the delete operations send no idempotency token at all. -/
theorem idempotency_key_on_mutations (cardId commentId : Int) (k : String) (now : Nat)
    (randHex : String) (hk : k ≠ "") :
    (createCardRequest (some k) now randHex).headers = [("Idempotency-Key", k)] ∧
    (createCardRequest none now randHex).headers =
      [("Idempotency-Key", "mcp-" ++ toString now ++ "-" ++ randHex)] ∧
    (updateCardRequest cardId (some k) now randHex).headers = [("Idempotency-Key", k)] ∧
    (updateCardRequest cardId none now randHex).headers =
      [("Idempotency-Key", "mcp-" ++ toString now ++ "-" ++ randHex)] ∧
    (createCommentRequest cardId (some k) now randHex).headers = [("Idempotency-Key", k)] ∧
    (createCommentRequest cardId none now randHex).headers =
      [("Idempotency-Key", "mcp-" ++ toString now ++ "-" ++ randHex)] ∧
    (updateCommentRequest cardId commentId (some k) now randHex).headers =
      [("Idempotency-Key", k)] ∧
    (updateCommentRequest cardId commentId none now randHex).headers =
      [("Idempotency-Key", "mcp-" ++ toString now ++ "-" ++ randHex)] ∧
    (deleteCardRequest cardId).headers = [] ∧
    (deleteCommentRequest cardId commentId).headers = [] := by
  simp [createCardRequest, updateCardRequest, createCommentRequest, updateCommentRequest,
    deleteCardRequest, deleteCommentRequest, effectiveIdempotencyKey, strOrElse,
    generateIdempotencyKey, hk]

/-- Witness for C6 (amended) at card 7, comment 9, caller key "k-1",
timestamp 1700000000000 and random hex "deadbeefdeadbeef". -/
theorem idempotency_key_on_mutations_witness :
    (createCardRequest (some "k-1") 1700000000000 "deadbeefdeadbeef").headers =
      [("Idempotency-Key", "k-1")] ∧
    (createCardRequest none 1700000000000 "deadbeefdeadbeef").headers =
      [("Idempotency-Key", "mcp-" ++ toString 1700000000000 ++ "-" ++ "deadbeefdeadbeef")] ∧
    (updateCardRequest 7 (some "k-1") 1700000000000 "deadbeefdeadbeef").headers =
      [("Idempotency-Key", "k-1")] ∧
    (updateCardRequest 7 none 1700000000000 "deadbeefdeadbeef").headers =
      [("Idempotency-Key", "mcp-" ++ toString 1700000000000 ++ "-" ++ "deadbeefdeadbeef")] ∧
    (createCommentRequest 7 (some "k-1") 1700000000000 "deadbeefdeadbeef").headers =
      [("Idempotency-Key", "k-1")] ∧
    (createCommentRequest 7 none 1700000000000 "deadbeefdeadbeef").headers =
      [("Idempotency-Key", "mcp-" ++ toString 1700000000000 ++ "-" ++ "deadbeefdeadbeef")] ∧
    (updateCommentRequest 7 9 (some "k-1") 1700000000000 "deadbeefdeadbeef").headers =
      [("Idempotency-Key", "k-1")] ∧
    (updateCommentRequest 7 9 none 1700000000000 "deadbeefdeadbeef").headers =
      [("Idempotency-Key", "mcp-" ++ toString 1700000000000 ++ "-" ++ "deadbeefdeadbeef")] ∧
    (deleteCardRequest 7).headers = [] ∧
    (deleteCommentRequest 7 9).headers = [] :=
  idempotency_key_on_mutations 7 9 "k-1" 1700000000000 "deadbeefdeadbeef" (by decide)

/-- C6 counterexample: `deleteCard` and `deleteComment` are mutating
operations whose requests carry no `Idempotency-Key` header (no per-request
headers at all), so "every mutating operation sends an idempotency token" is
false on the code. -/
theorem delete_requests_lack_idempotency_key :
    (deleteCardRequest 1).headers.lookup "Idempotency-Key" = none ∧
    (deleteCommentRequest 1 2).headers.lookup "Idempotency-Key" = none := ⟨rfl, rfl⟩

/-- Modelled from the spec: the admission policy of the `p-queue` dependency
(third-party code, not part of this repository's sources), which
`KaitenClient`'s constructor configures with `concurrency = N`,
`interval = 1000` and `intervalCap = N` (`src/kaiten-client.ts` lines
261-266).  Per spec §4.2/§5, a queued task may start only while fewer than
`N` tasks are running and fewer than `N` tasks have started within the last
second; admission decisions are serialized.  State: the number of running
tasks, the start timestamps recorded so far (ms), and the current clock. -/
structure GovState where
  running : Nat
  starts : List Nat
  now : Nat

/-- Number of recorded starts lying strictly within the last 1000 ms at time
`now` (i.e. with `now < s + 1000`). -/
def recentStarts (now : Nat) (starts : List Nat) : Nat :=
  starts.countP fun s => decide (now < s + 1000)

/-- Number of recorded starts falling in the rolling one-second window
`[t, t + 1000)`. -/
def rollingStarts (t : Nat) (starts : List Nat) : Nat :=
  starts.countP fun s => decide (t ≤ s) && decide (s < t + 1000)

/-- Modelled from the spec: one scheduler transition — time advances, a task
is admitted (only under the concurrency ceiling and the per-second admission
cap), or a running task finishes.  Submissions that cannot start merely wait
in the queue, so a burst of any size, including `10 × N` simultaneous
submissions, is a sequence of `start` steps interleaved with the others. -/
inductive GovStep (N : Nat) : GovState → GovState → Prop where
  | tick (st : GovState) (dt : Nat) :
      GovStep N st { st with now := st.now + dt }
  | start (st : GovState) :
      st.running < N →
      recentStarts st.now st.starts < N →
      GovStep N st { running := st.running + 1, starts := st.now :: st.starts, now := st.now }
  | finish (st : GovState) (r : Nat) :
      st.running = r + 1 →
      GovStep N st { st with running := r }

/-- The governor's idle initial state. -/
def govInit : GovState := { running := 0, starts := [], now := 0 }

/-- States reachable from the idle state by scheduler transitions. -/
def GovReachable (N : Nat) (st : GovState) : Prop :=
  Relation.ReflTransGen (GovStep N) govInit st

/-- The safety invariant for C4: the concurrency ceiling, that recorded
starts never lie in the future, and the rolling-window admission bound. -/
def GovInv (N : Nat) (st : GovState) : Prop :=
  st.running ≤ N ∧ (∀ s ∈ st.starts, s ≤ st.now) ∧ ∀ t, rollingStarts t st.starts ≤ N

/-- Any single scheduler transition preserves the safety invariant. -/
theorem govStep_preserves_inv {N : Nat} {st st' : GovState} (hstep : GovStep N st st')
    (hinv : GovInv N st) : GovInv N st' := by
  obtain ⟨hrun, hpast, hwin⟩ := hinv
  cases hstep with
  | tick dt =>
    exact ⟨hrun, fun s hs => Nat.le_trans (hpast s hs) (Nat.le_add_right _ _), hwin⟩
  | start hltN hrecent =>
    refine ⟨hltN, ?_, ?_⟩
    · intro s hs
      cases hs with
      | head => exact Nat.le_refl _
      | tail _ hs => exact hpast s hs
    · intro t
      show rollingStarts t (st.now :: st.starts) ≤ N
      by_cases hin : t ≤ st.now ∧ st.now < t + 1000
      · have hsub : rollingStarts t st.starts ≤ recentStarts st.now st.starts := by
          apply List.countP_mono_left
          intro s hs hmem
          simp only [Bool.and_eq_true, decide_eq_true_eq] at hmem
          simp only [decide_eq_true_eq]
          omega
        have : rollingStarts t (st.now :: st.starts) = rollingStarts t st.starts + 1 := by
          simp [rollingStarts, List.countP_cons, hin.1, hin.2]
        omega
      · have : rollingStarts t (st.now :: st.starts) = rollingStarts t st.starts := by
          have hcond : (decide (t ≤ st.now) && decide (st.now < t + 1000)) = false := by
            rcases Decidable.not_and_iff_or_not.mp hin with h | h <;> simp [h]
          simp [rollingStarts, List.countP_cons, hcond]
        have hw := hwin t
        omega
  | finish r hr =>
    exact ⟨by simp only; omega, hpast, hwin⟩

/-- C4: in every state the governor can reach — under any schedule, hence
also under a burst of `10 × N` simultaneous submissions — the number of
concurrently running requests never exceeds the configured ceiling `N`, and
no rolling one-second window contains more than `N` request starts.
(spec-modelled: the p-queue admission policy is third-party code, embedded
from the spec's description of the configured `concurrency`/`intervalCap`
behaviour.) -/
theorem governor_respects_ceilings (N : Nat) (st : GovState) (hreach : GovReachable N st) :
    st.running ≤ N ∧ ∀ t, rollingStarts t st.starts ≤ N := by
  have hinv : GovInv N st := by
    induction hreach with
    | refl =>
      refine ⟨Nat.zero_le _, ?_, ?_⟩
      · intro s hs
        cases hs
      · intro t
        simp [rollingStarts, govInit]
    | tail _ hstep ih => exact govStep_preserves_inv hstep ih
  exact ⟨hinv.1, hinv.2.2⟩

/-- Witness for C4: with `N = 2`, the state after one admitted start at time
0 is reachable and satisfies both ceilings. -/
theorem governor_respects_ceilings_witness :
    ({ running := 1, starts := [0], now := 0 } : GovState).running ≤ 2 ∧
    ∀ t, rollingStarts t ({ running := 1, starts := [0], now := 0 } : GovState).starts ≤ 2 :=
  governor_respects_ceilings 2 { running := 1, starts := [0], now := 0 }
    (Relation.ReflTransGen.single
      (GovStep.start govInit (by decide) (by decide)))

/-- `CacheEntry<T>` from `src/cache.ts` lines 9-12. -/
structure CacheEntry (D : Type) where
  data : D
  timestamp : Nat

/-- One kind's `LRUCache` map (`max: 100`), modelled as an association list
in most-recently-inserted-first order.  `lru-cache`'s internal staleness
test uses the same `now - start > ttl` threshold as the explicit
`isExpired` check in `cache.ts`, and a stale hit returns `undefined` and
drops the entry — observably identical to the explicit check below — so the
model keeps the store purely positional and lets `isExpired` carry the TTL
semantics. -/
def Store (D : Type) : Type := List (String × CacheEntry D)

/-- `LRUCache.get` (with `updateAgeOnGet: false`): plain lookup. -/
def lruGet {D : Type} (st : Store D) (key : String) : Option (CacheEntry D) :=
  (List.find? (fun p => p.1 == key) st).map fun p => p.2

/-- `LRUCache.set`: bind `key`, making it most recent, and evict past the
capacity of 100 entries. -/
def lruSet {D : Type} (st : Store D) (key : String) (entry : CacheEntry D) : Store D :=
  List.take 100 ((key, entry) :: List.filter (fun p => p.1 != key) st)

/-- `LRUCache.delete`. -/
def lruDelete {D : Type} (st : Store D) (key : String) : Store D :=
  List.filter (fun p => p.1 != key) st

/-- `isExpired` from `src/cache.ts` lines 219-221:
`Date.now() - entry.timestamp > this.ttlMs`. -/
def isExpired {D : Type} (ttlMs : Nat) (now : Nat) (entry : CacheEntry D) : Bool :=
  decide (now - entry.timestamp > ttlMs)

/-- The fields of `KaitenSpace` that the cache claims observe. -/
structure KaitenSpace where
  id : Int
  title : String
deriving DecidableEq

/-- The fields of `KaitenBoard` that the cache claims observe. -/
structure KaitenBoard where
  id : Int
  title : String
  space_id : Option Int
deriving DecidableEq

/-- `KaitenCache.getSpaces` (`src/cache.ts` lines 50-63).  `ttlSeconds` is
`config.KAITEN_CACHE_TTL_SECONDS`; `enabled` is `ttlSeconds > 0`; the pair
is (returned value, store after the call) since an expired read lazily
deletes the entry. -/
def getSpaces (ttlSeconds : Nat) (st : Store (List KaitenSpace)) (now : Nat) :
    Option (List KaitenSpace) × Store (List KaitenSpace) :=
  if ttlSeconds = 0 then (none, st)
  else
    match lruGet st "all" with
    | none => (none, st)
    | some entry =>
      if isExpired (ttlSeconds * 1000) now entry then (none, lruDelete st "all")
      else (some entry.data, st)

/-- `KaitenCache.setSpaces` (lines 65-73). -/
def setSpaces (ttlSeconds : Nat) (st : Store (List KaitenSpace)) (data : List KaitenSpace)
    (now : Nat) : Store (List KaitenSpace) :=
  if ttlSeconds = 0 then st
  else lruSet st "all" { data := data, timestamp := now }

/-- `KaitenCache.getSpace` (lines 75-89): keyed `space:<id>`, single space
stored as a one-element array and read back via `entry.data[0]`. -/
def getSpace (ttlSeconds : Nat) (st : Store (List KaitenSpace)) (spaceId : Int) (now : Nat) :
    Option KaitenSpace × Store (List KaitenSpace) :=
  if ttlSeconds = 0 then (none, st)
  else
    match lruGet st ("space:" ++ toString spaceId) with
    | none => (none, st)
    | some entry =>
      if isExpired (ttlSeconds * 1000) now entry then
        (none, lruDelete st ("space:" ++ toString spaceId))
      else (entry.data.head?, st)

/-- `KaitenCache.setSpace` (lines 91-100). -/
def setSpace (ttlSeconds : Nat) (st : Store (List KaitenSpace)) (spaceId : Int)
    (data : KaitenSpace) (now : Nat) : Store (List KaitenSpace) :=
  if ttlSeconds = 0 then st
  else lruSet st ("space:" ++ toString spaceId) { data := [data], timestamp := now }

/-- The boards-cache key (`src/cache.ts` lines 109 and 125):
`spaceId ? "space:" + spaceId : "all"` — JS truthiness makes `spaceId = 0`
fall into the `'all'` branch exactly like an omitted `spaceId`. -/
def boardsKey (spaceId : Option Int) : String :=
  match spaceId with
  | some s => if s = 0 then "all" else "space:" ++ toString s
  | none => "all"

/-- `KaitenCache.getBoards` (lines 106-120). -/
def getBoards (ttlSeconds : Nat) (st : Store (List KaitenBoard)) (spaceId : Option Int)
    (now : Nat) : Option (List KaitenBoard) × Store (List KaitenBoard) :=
  if ttlSeconds = 0 then (none, st)
  else
    match lruGet st (boardsKey spaceId) with
    | none => (none, st)
    | some entry =>
      if isExpired (ttlSeconds * 1000) now entry then (none, lruDelete st (boardsKey spaceId))
      else (some entry.data, st)

/-- `KaitenCache.setBoards` (lines 122-131). -/
def setBoards (ttlSeconds : Nat) (st : Store (List KaitenBoard)) (data : List KaitenBoard)
    (spaceId : Option Int) (now : Nat) : Store (List KaitenBoard) :=
  if ttlSeconds = 0 then st
  else lruSet st (boardsKey spaceId) { data := data, timestamp := now }

/-- A freshly `set` key is found, bound to the new entry. -/
theorem lruGet_lruSet_self {D : Type} (st : Store D) (key : String) (entry : CacheEntry D) :
    lruGet (lruSet st key entry) key = some entry := by
  unfold lruGet lruSet
  rw [show (100 : Nat) = 99 + 1 from rfl, List.take_succ_cons]
  rw [List.find?_cons_of_pos _ (by simp)]
  rfl

/-- A deleted key is no longer found. -/
theorem lruGet_lruDelete_self {D : Type} (st : Store D) (key : String) :
    lruGet (lruDelete st key) key = none := by
  induction st with
  | nil => rfl
  | cons hd tl ih =>
    unfold lruDelete at ih ⊢
    rw [List.filter_cons]
    by_cases h : (hd.1 != key) = true
    · rw [if_pos h]
      unfold lruGet at ih ⊢
      rw [List.find?_cons_of_neg _ (by simpa using h)]
      exact ih
    · rw [if_neg h]
      exact ih

/-- C7: with caching enabled (`TTL > 0`), a `set` followed by a `get` of the
same kind and key returns exactly the stored value — immediately, and as
long as the entry's age stays within `ttl` milliseconds and no other
operation intervenes; once the age exceeds the TTL the `get` returns `none`
and lazily evicts the entry on that read, leaving the key exactly as if it
had never been inserted (a key absent from the store always reads `none`,
store untouched).  Shown for the unscoped `spaces` entry and for the keyed
`space:<id>` entries. -/
theorem cache_put_get_roundtrip (ttlSeconds : Nat) (st : Store (List KaitenSpace))
    (v : List KaitenSpace) (spaceId : Int) (sp : KaitenSpace) (t0 t1 : Nat)
    (henabled : 0 < ttlSeconds) :
    getSpaces ttlSeconds (setSpaces ttlSeconds st v t0) t0 =
      (some v, setSpaces ttlSeconds st v t0) ∧
    (t1 - t0 ≤ ttlSeconds * 1000 →
      getSpaces ttlSeconds (setSpaces ttlSeconds st v t0) t1 =
        (some v, setSpaces ttlSeconds st v t0)) ∧
    (ttlSeconds * 1000 < t1 - t0 →
      (getSpaces ttlSeconds (setSpaces ttlSeconds st v t0) t1).1 = none ∧
      lruGet (getSpaces ttlSeconds (setSpaces ttlSeconds st v t0) t1).2 "all" = none) ∧
    (lruGet st "all" = none → getSpaces ttlSeconds st t1 = (none, st)) ∧
    getSpace ttlSeconds (setSpace ttlSeconds st spaceId sp t0) spaceId t0 =
      (some sp, setSpace ttlSeconds st spaceId sp t0) := by
  have hne : ttlSeconds ≠ 0 := by omega
  refine ⟨?_, ?_, ?_, ?_, ?_⟩
  · simp [getSpaces, setSpaces, hne, lruGet_lruSet_self, isExpired]
  · intro h
    have hlt : ¬(ttlSeconds * 1000 < t1 - t0) := by omega
    simp [getSpaces, setSpaces, hne, lruGet_lruSet_self, isExpired, hlt]
  · intro h
    have hexp :
        isExpired (ttlSeconds * 1000) t1 ({ data := v, timestamp := t0 } : CacheEntry _) =
          true := by
      simp only [isExpired, decide_eq_true_eq]
      omega
    constructor
    · simp [getSpaces, setSpaces, hne, lruGet_lruSet_self, hexp]
    · simp [getSpaces, setSpaces, hne, lruGet_lruSet_self, hexp, lruGet_lruDelete_self]
  · intro h
    simp [getSpaces, hne, h]
  · simp [getSpace, setSpace, hne, lruGet_lruSet_self, isExpired]

/-- Witness for C7: TTL 60 s; a list stored at time 0 is read back at times
0 and 30000 ms, is gone (and the entry evicted) at 100000 ms, and a
never-inserted store reads `none`; the keyed `space:5` entry round-trips
too. -/
theorem cache_put_get_roundtrip_witness :
    getSpaces 60 (setSpaces 60 [] [{ id := 1, title := "Main" }] 0) 0 =
      (some [{ id := 1, title := "Main" }], setSpaces 60 [] [{ id := 1, title := "Main" }] 0) ∧
    getSpaces 60 (setSpaces 60 [] [{ id := 1, title := "Main" }] 0) 30000 =
      (some [{ id := 1, title := "Main" }], setSpaces 60 [] [{ id := 1, title := "Main" }] 0) ∧
    (getSpaces 60 (setSpaces 60 [] [{ id := 1, title := "Main" }] 0) 100000).1 = none ∧
    lruGet (getSpaces 60 (setSpaces 60 [] [{ id := 1, title := "Main" }] 0) 100000).2 "all" =
      none ∧
    getSpaces 60 [] 30000 = (none, []) ∧
    getSpace 60 (setSpace 60 [] 5 { id := 5, title := "S" } 0) 5 0 =
      (some { id := 5, title := "S" }, setSpace 60 [] 5 { id := 5, title := "S" } 0) := by
  have h30 :=
    cache_put_get_roundtrip 60 [] [{ id := 1, title := "Main" }] 5 { id := 5, title := "S" }
      0 30000 (by decide)
  have h100 :=
    cache_put_get_roundtrip 60 [] [{ id := 1, title := "Main" }] 5 { id := 5, title := "S" }
      0 100000 (by decide)
  obtain ⟨hexp1, hexp2⟩ := h100.2.2.1 (by decide)
  exact ⟨h30.1, h30.2.1 (by decide), hexp1, hexp2, h30.2.2.2.1 rfl, h30.2.2.2.2⟩

/-- C10: in the boards cache the scope key for space id 0 is the same `all`
key used when no space id is given (JS truthiness makes `0` falsy), so
`setBoards(v, 0)` stores in the all-boards slot and both `getBoards()` and
`getBoards(0)` read that same entry back, while any non-zero space id keys
an independent `space:<id>` entry. -/
theorem boards_space_zero_conflated (ttlSeconds : Nat) (st : Store (List KaitenBoard))
    (v : List KaitenBoard) (t0 : Nat) (henabled : 0 < ttlSeconds) :
    boardsKey (some 0) = "all" ∧
    boardsKey none = "all" ∧
    getBoards ttlSeconds (setBoards ttlSeconds st v (some 0) t0) none t0 =
      (some v, setBoards ttlSeconds st v (some 0) t0) ∧
    getBoards ttlSeconds (setBoards ttlSeconds st v (some 0) t0) (some 0) t0 =
      (some v, setBoards ttlSeconds st v (some 0) t0) ∧
    setBoards ttlSeconds st v (some 0) t0 = setBoards ttlSeconds st v none t0 ∧
    ∀ s : Int, s ≠ 0 → boardsKey (some s) = "space:" ++ toString s := by
  have hne : ttlSeconds ≠ 0 := by omega
  refine ⟨rfl, rfl, ?_, ?_, rfl, ?_⟩
  · simp [getBoards, setBoards, boardsKey, hne, lruGet_lruSet_self, isExpired]
  · simp [getBoards, setBoards, boardsKey, hne, lruGet_lruSet_self, isExpired]
  · intro s hs
    simp [boardsKey, hs]

/-- Witness for C10: TTL 60 s, a one-board list stored under space id 0 at
time 0 is read back by the unscoped and the id-0 reads, and space id 7 keys
`space:7`. -/
theorem boards_space_zero_conflated_witness :
    boardsKey (some 0) = "all" ∧
    boardsKey none = "all" ∧
    getBoards 60 (setBoards 60 [] [{ id := 3, title := "B", space_id := some 0 }] (some 0) 0)
        none 0 =
      (some [{ id := 3, title := "B", space_id := some 0 }],
       setBoards 60 [] [{ id := 3, title := "B", space_id := some 0 }] (some 0) 0) ∧
    getBoards 60 (setBoards 60 [] [{ id := 3, title := "B", space_id := some 0 }] (some 0) 0)
        (some 0) 0 =
      (some [{ id := 3, title := "B", space_id := some 0 }],
       setBoards 60 [] [{ id := 3, title := "B", space_id := some 0 }] (some 0) 0) ∧
    setBoards 60 [] [{ id := 3, title := "B", space_id := some 0 }] (some 0) 0 =
      setBoards 60 [] [{ id := 3, title := "B", space_id := some 0 }] none 0 ∧
    boardsKey (some 7) = "space:" ++ toString (7 : Int) := by
  have h :=
    boards_space_zero_conflated 60 [] [{ id := 3, title := "B", space_id := some 0 }] 0
      (by decide)
  exact ⟨h.1, h.2.1, h.2.2.1, h.2.2.2.1, h.2.2.2.2.1, h.2.2.2.2.2 7 (by decide)⟩

/-- `MAX_RESPONSE_LENGTH` from `src/utils.ts` line 7. -/
def MAX_RESPONSE_LENGTH : Nat := 100000

/-- `Math.round(maxLength / 4)` for a natural `maxLength` (JS rounds halves
up). -/
def jsRoundQuarter (m : Nat) : Nat := (m + 2) / 4

/-- The fixed text of the truncation notice up to the original length. -/
def truncationNoticePre : String :=
  "\n\n" ++
  "─────────────────────────────────────────\n" ++
  "⚠️  RESPONSE TRUNCATED\n" ++
  "Original length: "

/-- Fixed text between the original length and the truncated count. -/
def truncationNoticeMid1 : String := " characters\n" ++ "Truncated: "

/-- Fixed text between the truncated count and the shown length. -/
def truncationNoticeMid2 : String := " characters\n" ++ "Showing: "

/-- Fixed text between the shown length and the token estimate. -/
def truncationNoticeMid3 : String := " characters (~"

/-- Fixed mitigation text up to the verbosity suggestion. -/
def truncationNoticeTailA : String :=
  " tokens)\n\n" ++
  "💡 To reduce response size:\n" ++
  "   • Use more specific filters (board_id, space_id, column_id)\n" ++
  "   • Reduce the limit parameter (current results may exceed limit)\n" ++
  "   • "

/-- The verbosity mitigation line's text. -/
def mitigationText : String := "Use verbosity: 'minimal' for compact output"

/-- Fixed text closing the notice. -/
def truncationNoticeTailB : String :=
  "\n" ++
  "   • Search in smaller time ranges (created_after, updated_after)\n" ++
  "─────────────────────────────────────────"

/-- The trailing notice appended by `truncateResponse` (`src/utils.ts` lines
21-35).  JS strings are modelled as `List Char`; `toLocaleString()` is
modelled as the plain decimal rendering (its digit grouping is
locale-dependent presentation only). -/
def truncationNotice (originalLength truncatedChars maxLength : Nat) : List Char :=
  truncationNoticePre.data ++ (Nat.repr originalLength).data ++
  truncationNoticeMid1.data ++ (Nat.repr truncatedChars).data ++
  truncationNoticeMid2.data ++ (Nat.repr maxLength).data ++
  truncationNoticeMid3.data ++ (Nat.repr (jsRoundQuarter maxLength)).data ++
  truncationNoticeTailA.data ++ mitigationText.data ++ truncationNoticeTailB.data

/-- `truncateResponse` from `src/utils.ts` lines 9-36. -/
def truncateResponse (text : List Char) (maxLength : Nat) : List Char :=
  if text.length ≤ maxLength then text
  else List.take maxLength text ++
    truncationNotice text.length (text.length - maxLength) maxLength

/-- C8: text at or under the ceiling is returned unchanged; longer text
becomes its first `maxLength` characters followed by the notice, so the
result's length is exactly (hence at most) `maxLength` plus the notice's
length, and the notice states the original length, the number of characters
removed, and the mitigations (in particular the lower-verbosity
suggestion). -/
theorem truncateResponse_spec (text : List Char) (maxLength : Nat) :
    (text.length ≤ maxLength → truncateResponse text maxLength = text) ∧
    (maxLength < text.length →
      truncateResponse text maxLength =
        List.take maxLength text ++
          truncationNotice text.length (text.length - maxLength) maxLength ∧
      (truncateResponse text maxLength).length =
        maxLength + (truncationNotice text.length (text.length - maxLength) maxLength).length ∧
      List.IsInfix (Nat.repr text.length).data
        (truncationNotice text.length (text.length - maxLength) maxLength) ∧
      List.IsInfix (Nat.repr (text.length - maxLength)).data
        (truncationNotice text.length (text.length - maxLength) maxLength) ∧
      List.IsInfix mitigationText.data
        (truncationNotice text.length (text.length - maxLength) maxLength)) := by
  constructor
  · intro h
    simp [truncateResponse, h]
  · intro h
    have hnle : ¬(text.length ≤ maxLength) := by omega
    refine ⟨by simp [truncateResponse, hnle], ?_, ?_, ?_, ?_⟩
    · simp [truncateResponse, hnle]
      omega
    · exact ⟨truncationNoticePre.data,
        truncationNoticeMid1.data ++ (Nat.repr (text.length - maxLength)).data ++
        truncationNoticeMid2.data ++ (Nat.repr maxLength).data ++
        truncationNoticeMid3.data ++ (Nat.repr (jsRoundQuarter maxLength)).data ++
        truncationNoticeTailA.data ++ mitigationText.data ++ truncationNoticeTailB.data,
        by simp [truncationNotice]⟩
    · exact ⟨truncationNoticePre.data ++ (Nat.repr text.length).data ++
        truncationNoticeMid1.data,
        truncationNoticeMid2.data ++ (Nat.repr maxLength).data ++
        truncationNoticeMid3.data ++ (Nat.repr (jsRoundQuarter maxLength)).data ++
        truncationNoticeTailA.data ++ mitigationText.data ++ truncationNoticeTailB.data,
        by simp [truncationNotice]⟩
    · exact ⟨truncationNoticePre.data ++ (Nat.repr text.length).data ++
        truncationNoticeMid1.data ++ (Nat.repr (text.length - maxLength)).data ++
        truncationNoticeMid2.data ++ (Nat.repr maxLength).data ++
        truncationNoticeMid3.data ++ (Nat.repr (jsRoundQuarter maxLength)).data ++
        truncationNoticeTailA.data,
        truncationNoticeTailB.data,
        by simp [truncationNotice]⟩

set_option maxRecDepth 4000 in
/-- Witness for C8: a 3-character text under a ceiling of 5 is unchanged,
and a 6-character text over a ceiling of 4 is cut to 4 characters plus the
notice, with the stated length equation and notice contents. -/
theorem truncateResponse_spec_witness :
    truncateResponse ['a', 'b', 'c'] 5 = ['a', 'b', 'c'] ∧
    (truncateResponse ['a', 'b', 'c', 'd', 'e', 'f'] 4 =
      List.take 4 ['a', 'b', 'c', 'd', 'e', 'f'] ++ truncationNotice 6 2 4 ∧
    (truncateResponse ['a', 'b', 'c', 'd', 'e', 'f'] 4).length =
      4 + (truncationNotice 6 2 4).length ∧
    List.IsInfix (Nat.repr 6).data (truncationNotice 6 2 4) ∧
    List.IsInfix (Nat.repr 2).data (truncationNotice 6 2 4) ∧
    List.IsInfix mitigationText.data (truncationNotice 6 2 4)) := by
  constructor
  · exact (truncateResponse_spec ['a', 'b', 'c'] 5).1 (by simp)
  · exact (truncateResponse_spec ['a', 'b', 'c', 'd', 'e', 'f'] 4).2 (by simp)

/-- The fields of `KaitenUser` that the verbosity projections read. -/
structure KaitenUser where
  id : Int
  full_name : String
deriving DecidableEq

/-- The projection-relevant fields of a runtime card object.  JS objects are
open: `owner_name` exists only on minimal-projection outputs, and reading an
absent field yields `undefined`; both `undefined` and `null` are modelled as
`none`. -/
structure CardObj where
  id : Int
  title : String
  board_id : Option Int
  owner : Option KaitenUser
  owner_name : Option String
deriving DecidableEq

/-- `VerbosityLevel` from `src/utils.ts` line 42. -/
inductive VerbosityLevel where
  | minimal
  | normal
  | detailed
deriving DecidableEq

/-- Per-card body of `applyCardVerbosityMinimal` (`src/utils.ts` lines
45-52): keep id, title, board_id, and `card.owner?.full_name || null` as
`owner_name` (the empty string is falsy); the output has no `owner`
field. -/
def projectCardMinimal (card : CardObj) : CardObj :=
  { id := card.id, title := card.title, board_id := card.board_id
    owner := none
    owner_name :=
      match card.owner with
      | some u => if u.full_name = "" then none else some u.full_name
      | none => none }

/-- `applyCardVerbosityMinimal` from `src/utils.ts` lines 45-52. -/
def applyCardVerbosityMinimal (cards : List CardObj) : List CardObj :=
  cards.map projectCardMinimal

/-- `applyCardVerbosityNormal` from `src/utils.ts` lines 55-60: map the
caller-supplied `simplifyFn`. -/
def applyCardVerbosityNormal (cards : List CardObj) (simplifyFn : CardObj → CardObj) :
    List CardObj :=
  cards.map simplifyFn

/-- `applyCardVerbosityDetailed` from `src/utils.ts` lines 63-65: return the
cards as-is. -/
def applyCardVerbosityDetailed (cards : List CardObj) : List CardObj :=
  cards

/-- `applyCardVerbosity` from `src/utils.ts` lines 68-82. -/
def applyCardVerbosity (cards : List CardObj) (verbosity : VerbosityLevel)
    (simplifyFn : CardObj → CardObj) : List CardObj :=
  match verbosity with
  | .minimal => applyCardVerbosityMinimal cards
  | .detailed => applyCardVerbosityDetailed cards
  | .normal => applyCardVerbosityNormal cards simplifyFn

/-- C9 (amended): the projection is total (it is a function, never
throwing), `detailed` returns the input unchanged (hence is idempotent), and
re-projecting at `minimal` equals the first minimal projection with every
`owner_name` reset to `null` — because the minimal output has no `owner`
field from which to recompute it — so projection at `minimal` is idempotent
only on lists whose cards carry no owner, not in general. -/
theorem card_verbosity_laws (cards : List CardObj) (simplifyFn : CardObj → CardObj) :
    applyCardVerbosity cards VerbosityLevel.detailed simplifyFn = cards ∧
    applyCardVerbosityMinimal (applyCardVerbosityMinimal cards) =
      (applyCardVerbosityMinimal cards).map (fun c => { c with owner_name := none }) ∧
    ((∀ c ∈ cards, c.owner = none) →
      applyCardVerbosity (applyCardVerbosity cards VerbosityLevel.minimal simplifyFn)
          VerbosityLevel.minimal simplifyFn =
        applyCardVerbosity cards VerbosityLevel.minimal simplifyFn) := by
  have hmapmap : applyCardVerbosityMinimal (applyCardVerbosityMinimal cards) =
      (applyCardVerbosityMinimal cards).map fun c => { c with owner_name := none } := by
    simp only [applyCardVerbosityMinimal, List.map_map]
    apply List.map_congr_left
    intro c _
    rfl
  refine ⟨rfl, hmapmap, ?_⟩
  intro hall
  show applyCardVerbosityMinimal (applyCardVerbosityMinimal cards) =
    applyCardVerbosityMinimal cards
  rw [hmapmap]
  simp only [applyCardVerbosityMinimal, List.map_map]
  apply List.map_congr_left
  intro c hc
  have hco := hall c hc
  simp [Function.comp, projectCardMinimal, hco]

/-- Witness for C9 (amended): a one-card list with no owner — `detailed` is
the identity, the re-projection law holds, and `minimal` is idempotent
there. -/
theorem card_verbosity_laws_witness :
    applyCardVerbosity
        [{ id := 1, title := "T", board_id := some 2, owner := none, owner_name := none }]
        VerbosityLevel.detailed id =
      [{ id := 1, title := "T", board_id := some 2, owner := none, owner_name := none }] ∧
    applyCardVerbosityMinimal (applyCardVerbosityMinimal
        [{ id := 1, title := "T", board_id := some 2, owner := none, owner_name := none }]) =
      (applyCardVerbosityMinimal
        [{ id := 1, title := "T", board_id := some 2, owner := none
           owner_name := none }]).map (fun c => { c with owner_name := none }) ∧
    applyCardVerbosity (applyCardVerbosity
        [{ id := 1, title := "T", board_id := some 2, owner := none, owner_name := none }]
        VerbosityLevel.minimal id) VerbosityLevel.minimal id =
      applyCardVerbosity
        [{ id := 1, title := "T", board_id := some 2, owner := none, owner_name := none }]
        VerbosityLevel.minimal id := by
  have h := card_verbosity_laws
    [{ id := 1, title := "T", board_id := some 2, owner := none, owner_name := none }] id
  refine ⟨h.1, h.2.1, h.2.2 ?_⟩
  intro c hc
  rw [List.mem_singleton] at hc
  subst hc
  rfl

/-- C9 counterexample: projecting a card that has an owner at `minimal` and
re-projecting the result changes it — `owner_name` falls back to `null`
because the minimal output carries no `owner` field — so
`project(project(x, t), t) = project(x, t)` fails at `t = minimal`. -/
theorem card_minimal_not_idempotent :
    applyCardVerbosity
        (applyCardVerbosity
          [{ id := 1, title := "T", board_id := some 2
             owner := some { id := 7, full_name := "Alice" }, owner_name := none }]
          VerbosityLevel.minimal id)
        VerbosityLevel.minimal id ≠
      applyCardVerbosity
        [{ id := 1, title := "T", board_id := some 2
           owner := some { id := 7, full_name := "Alice" }, owner_name := none }]
        VerbosityLevel.minimal id := by
  decide

end KaitenMCP
